import Mathlib

/-!
Verification of the geographic overlap / demographics core of the
team-62-map repository, shallowly embedded in Lean.

Geometry (src/utils/geographicUtils.ts) is modelled over the real
numbers; demographics parsing (src/utils/demographicsUtils.ts) and the
recommendation enrichment (ChatGPTService) are modelled over the
rationals and strings so that they stay executable; the search
orchestration in GoogleMap.tsx is modelled as small discrete transition
systems over a virtual clock.
-/

open Classical

/-- A latitude/longitude pair, from geographicUtils.ts (GeographicPoint). -/
structure GeographicPoint where
  lat : ℝ
  lng : ℝ

/-- The two-argument arctangent, as JavaScript Math.atan2(y, x). -/
noncomputable def atan2 (y x : ℝ) : ℝ :=
  if 0 < x then Real.arctan (y / x)
  else if x = 0 then
    (if 0 < y then Real.pi / 2 else if y < 0 then -(Real.pi / 2) else 0)
  else if 0 ≤ y then Real.arctan (y / x) + Real.pi
  else Real.arctan (y / x) - Real.pi

/-- Haversine distance in meters, from calculateDistance in
geographicUtils.ts (Earth radius 6371000 m). -/
noncomputable def calculateDistance (point1 point2 : GeographicPoint) : ℝ :=
  let R : ℝ := 6371000
  let phi1 := point1.lat * Real.pi / 180
  let phi2 := point2.lat * Real.pi / 180
  let dphi := (point2.lat - point1.lat) * Real.pi / 180
  let dlam := (point2.lng - point1.lng) * Real.pi / 180
  let a := Real.sin (dphi / 2) * Real.sin (dphi / 2) +
    Real.cos phi1 * Real.cos phi2 * Real.sin (dlam / 2) * Real.sin (dlam / 2)
  let c := 2 * atan2 (Real.sqrt a) (Real.sqrt (1 - a))
  R * c

/-- Overlap test from doCirclesOverlap: distance strictly below the sum
of the radii. -/
noncomputable def doCirclesOverlap (center1 : GeographicPoint) (radius1 : ℝ)
    (center2 : GeographicPoint) (radius2 : ℝ) : Prop :=
  calculateDistance center1 center2 < radius1 + radius2

/-- First acos argument in the partial-intersection branch of
calculateCircleIntersectionArea. -/
noncomputable def acosArg1 (distance radius1 radius2 : ℝ) : ℝ :=
  (distance * distance + radius1 * radius1 - radius2 * radius2) /
    (2 * distance * radius1)

/-- Second acos argument in the partial-intersection branch of
calculateCircleIntersectionArea. -/
noncomputable def acosArg2 (distance radius1 radius2 : ℝ) : ℝ :=
  (distance * distance + radius2 * radius2 - radius1 * radius1) /
    (2 * distance * radius2)

/-- Lens-area expression of the partial-intersection branch: the two
r-squared-weighted arccos terms minus the triangle term. -/
noncomputable def lensArea (distance radius1 radius2 : ℝ) : ℝ :=
  let r1Squared := radius1 * radius1
  let r2Squared := radius2 * radius2
  let area1 := r1Squared * Real.arccos (acosArg1 distance radius1 radius2)
  let area2 := r2Squared * Real.arccos (acosArg2 distance radius1 radius2)
  let triangleArea := 0.5 * Real.sqrt ((-distance + radius1 + radius2) *
    (distance + radius1 - radius2) * (distance - radius1 + radius2) *
    (distance + radius1 + radius2))
  area1 + area2 - triangleArea

/-- Circle-circle intersection area, from
calculateCircleIntersectionArea in geographicUtils.ts. -/
noncomputable def calculateCircleIntersectionArea (center1 : GeographicPoint)
    (radius1 : ℝ) (center2 : GeographicPoint) (radius2 : ℝ) : ℝ :=
  let distance := calculateDistance center1 center2
  if radius1 + radius2 ≤ distance then 0
  else if distance ≤ |radius1 - radius2| then
    let smallerRadius := min radius1 radius2
    Real.pi * smallerRadius * smallerRadius
  else
    lensArea distance radius1 radius2

/-- A business record with a location and an optional coverage radius,
from geographicUtils.ts (BusinessWithLocation). -/
structure BusinessWithLocation where
  place_id : String
  name : String
  location : GeographicPoint
  radius : Option ℝ

/-- One detected overlap, from geographicUtils.ts (OverlapResult). -/
structure OverlapResult where
  business1 : String
  business2 : String
  distance : ℝ
  overlapArea : ℝ
  overlapPercentage : ℝ

/-- The radius default in findOverlappingBusinesses:
business.radius OR-ELSE 4023.36, where the JavaScript OR treats an
explicit 0 as falsy as well as a missing value. -/
noncomputable def effRadius (radius : Option ℝ) : ℝ :=
  match radius with
  | some r => if r = 0 then 4023.36 else r
  | none => 4023.36

/-- Body of the inner loop of findOverlappingBusinesses for one ordered
pair of businesses: emit an OverlapResult when the circles overlap. -/
noncomputable def overlapPair (business1 business2 : BusinessWithLocation) :
    Option OverlapResult :=
  let radius1 := effRadius business1.radius
  let radius2 := effRadius business2.radius
  if doCirclesOverlap business1.location radius1 business2.location radius2 then
    let distance := calculateDistance business1.location business2.location
    let overlapArea := calculateCircleIntersectionArea business1.location radius1
      business2.location radius2
    let smallerCircleArea := Real.pi * (min radius1 radius2) ^ 2
    some { business1 := business1.place_id
           business2 := business2.place_id
           distance := distance
           overlapArea := overlapArea
           overlapPercentage := overlapArea / smallerCircleArea * 100 }
  else none

/-- findOverlappingBusinesses from geographicUtils.ts: the nested
i-then-j-greater-than-i scan, emitting overlap records in discovery
order. -/
noncomputable def findOverlappingBusinesses :
    List BusinessWithLocation → List OverlapResult
  | [] => []
  | b :: rest => rest.filterMap (overlapPair b) ++ findOverlappingBusinesses rest

/-- All ordered pairs of list elements whose first component occurs
strictly before the second, in lexicographic scan order. -/
def orderedPairs {α : Type} : List α → List (α × α)
  | [] => []
  | x :: xs => xs.map (fun y => (x, y)) ++ orderedPairs xs

/-- Two overlap records naming the same unordered pair of ids. -/
def sameUnorderedPair (o1 o2 : OverlapResult) : Prop :=
  (o1.business1 = o2.business1 ∧ o1.business2 = o2.business2) ∨
  (o1.business1 = o2.business2 ∧ o1.business2 = o2.business1)

/-! Demographics parsing, from src/utils/demographicsUtils.ts.  Numeric
values are modelled over the integers and rationals; the two network
calls are modelled by their possible outcomes. -/

/-- Result of JavaScript parseInt on a string (radix 10): optional sign
followed by a digit prefix; none models NaN. -/
def jsParseInt (s : String) : Option Int :=
  let cs := s.toList.dropWhile (fun c => c = ' ')
  let digits := fun (l : List Char) =>
    let ds := l.takeWhile Char.isDigit
    if ds.isEmpty then (none : Option Nat)
    else some (ds.foldl (fun acc c => acc * 10 + (c.toNat - 48)) 0)
  match cs with
  | '-' :: rest => (digits rest).map (fun n => -(n : Int))
  | '+' :: rest => (digits rest).map (fun n => (n : Int))
  | _ => (digits cs).map (fun n => (n : Int))

/-- The parseInt-or-zero idiom of demographicsUtils.ts: parseInt(x) OR 0,
where a missing value or NaN collapses to 0. -/
def parseIntOrZero (o : Option String) : Int :=
  match o.bind jsParseInt with
  | some n => n
  | none => 0

/-- The string OR-default idiom: a missing or empty string falls back to
the default. -/
def jsOrString (o : Option String) (dflt : String) : String :=
  match o with
  | some s => if s = "" then dflt else s
  | none => dflt

/-- DemographicsData, from demographicsUtils.ts. -/
structure DemographicsData where
  population : Int
  medianIncome : Int
  medianHomeValue : Int
  collegePercent : ℚ
  tractName : String
  state : String
  county : String
deriving DecidableEq, Repr

/-- DemographicsError, from demographicsUtils.ts. -/
structure DemographicsError where
  error : String
  details : Option String
deriving DecidableEq, Repr

/-- The header-row/data-row zip of the census response: the dataObj
record built by assigning dataObj[header] = data[index] in index order,
so a later duplicate header wins and a missing data cell reads back as
undefined. -/
def dataObjLookup (headers data : List String) (key : String) : Option String :=
  ((headers.enum.map (fun p => (p.2, data[p.1]?))).reverse.find?
    (fun p => p.1 = key)).bind (fun p => p.2)

/-- The success-path field extraction of fetchDemographics: parse the
tabular census row into a DemographicsData record. -/
def parseCensusRows (headers data : List String) (state county : String) :
    DemographicsData :=
  let dataObj := fun k => dataObjLookup headers data k
  let population := parseIntOrZero (dataObj "B01003_001E")
  let medianIncome := parseIntOrZero (dataObj "B19013_001E")
  let medianHomeValue := parseIntOrZero (dataObj "B25077_001E")
  let bachelors := parseIntOrZero (dataObj "B15003_022E")
  let masters := parseIntOrZero (dataObj "B15003_023E")
  let professional := parseIntOrZero (dataObj "B15003_024E")
  let doctorate := parseIntOrZero (dataObj "B15003_025E")
  let collegeGrads := bachelors + masters + professional + doctorate
  let collegePercent : ℚ :=
    if 0 < population then ((collegeGrads : ℚ) / (population : ℚ)) * 100 else 0
  { population := population
    medianIncome := medianIncome
    medianHomeValue := medianHomeValue
    collegePercent := collegePercent
    tractName := jsOrString (dataObj "NAME") "Unknown Census Tract"
    state := state
    county := county }

/-- One geography result object of the FCC response, with the optional
string fields the code reads. -/
structure GeoResult where
  state_fips : Option String
  state_code : Option String
  county_fips : Option String
  county_code : Option String
  block_fips : Option String
  block_code : Option String
deriving DecidableEq, Repr

/-- The parsed FCC response body: an object with an optional results
array. -/
structure GeoData where
  results : Option (List GeoResult)
deriving DecidableEq, Repr

/-- Possible states of a fetched response body after the empty-text and
JSON-parse checks. -/
inductive BodyOutcome (α : Type) where
  | empty
  | malformed
  | parsed (v : α)
deriving DecidableEq, Repr

/-- Possible outcomes of one awaited fetch: rejected because the abort
signal fired, rejected with a transport error, resolved with a non-ok
status, or resolved with a body. -/
inductive CallOutcome (α : Type) where
  | aborted
  | networkError (msg : String)
  | httpError (status : Nat) (statusText : String)
  | got (b : BodyOutcome α)
deriving DecidableEq, Repr

/-- The environment of one fetchDemographics call: the outcomes of its
two chained fetches. -/
structure FetchEnv where
  geo : CallOutcome GeoData
  census : CallOutcome (Option (List (List String)))

/-- An exception of the modelled JavaScript code: either the AbortError
raised by a cancelled fetch, or an ordinary Error with its message. -/
inductive JsErr where
  | abortErr
  | err (msg : String)
deriving DecidableEq, Repr

/-- Await one fetch and run the response-ok, empty-body and JSON-parse
checks, with the per-API error messages of demographicsUtils.ts. -/
def awaitCall {α : Type} (c : CallOutcome α)
    (apiLabel emptyMsg invalidMsg : String) : Except JsErr α :=
  match c with
  | .aborted => .error .abortErr
  | .networkError m => .error (.err m)
  | .httpError status statusText =>
      .error (.err (apiLabel ++ " error: " ++ toString status ++ " " ++ statusText))
  | .got .empty => .error (.err emptyMsg)
  | .got .malformed => .error (.err invalidMsg)
  | .got (.parsed v) => .ok v

/-- JavaScript truthiness for an optional string: undefined, null and
the empty string are falsy. -/
def truthyOpt (o : Option String) : Option String :=
  match o with
  | some s => if s = "" then none else some s
  | none => none

/-- The x OR-ELSE y idiom on optional strings: yields y unchanged when x
is falsy. -/
def jsOrOpt (a b : Option String) : Option String :=
  match truthyOpt a with
  | some s => some s
  | none => b

/-- Render an optional string inside a template literal, as JavaScript
string interpolation renders undefined. -/
def renderOpt (o : Option String) : String :=
  match o with
  | some s => s
  | none => "undefined"

/-- Render the possibly-null county FIPS inside a template literal. -/
def renderNullOpt (o : Option String) : String :=
  match o with
  | some s => s
  | none => "null"

/-- Left pad with a character up to a length, as String.padStart. -/
def padStart (s : String) (n : Nat) (c : Char) : String :=
  if n ≤ s.length then s
  else String.mk (List.replicate (n - s.length) c) ++ s

/-- The geography step of fetchDemographics: await the FCC call, check
for a result, extract and validate the FIPS codes, and produce the
padded state, county and tract identifiers for the census query. -/
def geoStage (c : CallOutcome GeoData) : Except JsErr (String × String × String) := do
  let geoData ← awaitCall c "FCC API" "Empty response from FCC API"
    "Invalid JSON response from FCC API"
  match geoData.results with
  | none => .error (.err "Location not found in census data")
  | some [] => .error (.err "Location not found in census data")
  | some (result :: _) =>
    let state_fips := jsOrOpt result.state_fips result.state_code
    let county_fips_full := jsOrOpt result.county_fips result.county_code
    let block_fips := jsOrOpt result.block_fips result.block_code
    let county_fips : Option String :=
      match truthyOpt county_fips_full with
      | some s => some (s.takeRight 3)
      | none => none
    match truthyOpt state_fips, county_fips, truthyOpt block_fips with
    | some st, some cty, some blk =>
        let tract := blk.take 11
        .ok (padStart st 2 '0', padStart cty 3 '0', tract.drop 5)
    | st, cty, blk =>
        .error (.err ("Missing FIPS data: state=" ++ renderOpt st ++
          ", county=" ++ renderNullOpt cty ++ ", block=" ++ renderOpt blk))

/-- The census step of fetchDemographics: await the census call, check
that at least a header row and a data row are present, and parse them. -/
def censusStage (c : CallOutcome (Option (List (List String))))
    (state county : String) : Except JsErr DemographicsData := do
  let censusData ← awaitCall c "Census API" "Empty response from Census API"
    "Invalid JSON response from Census API"
  match censusData with
  | some (headers :: dataRow :: _) => .ok (parseCensusRows headers dataRow state county)
  | _ => .error (.err "No demographic data available for this location")

/-- The body of the try block of fetchDemographics. -/
def fetchDemographicsExc (env : FetchEnv) : Except JsErr DemographicsData := do
  let (state, county, _tract6) ← geoStage env.geo
  censusStage env.census state county

/-- fetchDemographics from demographicsUtils.ts: the try/catch boundary
that converts every thrown error into a DemographicsError value,
distinguishing the AbortError of a cancelled fetch. -/
def fetchDemographics (env : FetchEnv) : Sum DemographicsData DemographicsError :=
  match fetchDemographicsExc env with
  | .ok d => .inl d
  | .error .abortErr => .inr { error := "Request cancelled", details := none }
  | .error (.err m) => .inr { error := "Failed to fetch demographics", details := some m }

/-! Recommendation enrichment, from ChatGPTService
(enrichRecommendationsWithDemographics). -/

/-- The demographicFit sub-record of a RecommendedPoint. -/
structure DemographicFit where
  targetMatch : ℚ
  competitionLevel : ℚ
  marketPotential : ℚ
deriving DecidableEq, Repr

/-- The nearestCompetitor sub-record of a RecommendedPoint. -/
structure NearestCompetitor where
  distance : ℚ
  name : String
deriving DecidableEq, Repr

/-- The proximityAnalysis sub-record of a RecommendedPoint. -/
structure ProximityAnalysis where
  nearestCompetitor : NearestCompetitor
  supportingBusinesses : List String
deriving DecidableEq, Repr

/-- A recommended placement point, from the ChatGPTService interfaces;
realDemographics is the optional field that enrichment populates. -/
structure RecommendedPoint where
  id : String
  lat : ℚ
  lng : ℚ
  tortoiseLevel : ℚ
  reasoning : String
  demographics : DemographicFit
  proximityAnalysis : ProximityAnalysis
  realDemographics : Option (Sum DemographicsData DemographicsError)
deriving DecidableEq, Repr

/-- What the awaited per-point lookup did: either it produced a
demographics value or error as fetchDemographics does, or the promise
rejected and the catch branch runs. -/
inductive LookupOutcome where
  | value (v : Sum DemographicsData DemographicsError)
  | rejected (msg : String)
deriving DecidableEq, Repr

/-- One arm of the enrichment map: attach the lookup outcome to the
point, converting a rejection into the catch-branch DemographicsError. -/
def enrichOne (outcome : LookupOutcome) (r : RecommendedPoint) : RecommendedPoint :=
  match outcome with
  | .value v => { r with realDemographics := some v }
  | .rejected m =>
      { r with realDemographics := some (Sum.inr
          { error := "Failed to fetch demographic data", details := some m }) }

/-- The element-wise enrichment, indexed so that each point gets the
outcome of its own lookup. -/
def enrichAux (lookup : ℕ → LookupOutcome) :
    ℕ → List RecommendedPoint → List RecommendedPoint
  | _, [] => []
  | i, r :: rs => enrichOne (lookup i) r :: enrichAux lookup (i + 1) rs

/-- enrichRecommendationsWithDemographics from ChatGPTService: one
independently-wrapped lookup per recommendation, awaited together; the
lookup argument gives each position its settled outcome. -/
def enrichRecommendationsWithDemographics (lookup : ℕ → LookupOutcome)
    (recommendations : List RecommendedPoint) : List RecommendedPoint :=
  enrichAux lookup 0 recommendations

/-! Search orchestration, from GoogleMap.tsx.  Time is a virtual clock
in milliseconds. -/

/-- The minimum interval between searches (MIN_SEARCH_INTERVAL). -/
def MIN_SEARCH_INTERVAL : ℕ := 2000

/-- The rate-limiting bookkeeping of GoogleMap.tsx: the time of the last
dispatched search, the deadline of the pending search timeout if any,
and the log of dispatch times. -/
structure SearchSched where
  lastSearchTime : ℕ
  pending : Option ℕ
  dispatches : List ℕ
deriving DecidableEq, Repr

/-- The search-scheduling effect of GoogleMap.tsx: clear any pending
timeout and schedule searchBusinesses after
max(0, MIN_SEARCH_INTERVAL - (now - lastSearchTime)) milliseconds. -/
def requestSearch (s : SearchSched) (now : ℕ) : SearchSched :=
  let minDelay := MIN_SEARCH_INTERVAL - (now - s.lastSearchTime)
  { s with pending := some (now + minDelay) }

/-- The timeout firing at time now: run searchBusinesses, whose
rate-limit guard returns early when called again within the minimum
interval and otherwise records the dispatch. -/
def fireTimeout (s : SearchSched) (now : ℕ) : SearchSched :=
  match s.pending with
  | none => s
  | some _ =>
    if now - s.lastSearchTime < MIN_SEARCH_INTERVAL then
      { s with pending := none }
    else
      { lastSearchTime := now, pending := none, dispatches := now :: s.dispatches }

/-- What a delivery to the consumer callback carried. -/
inductive DeliveryKind where
  | results
  | emptyOnError
  | demographics
deriving DecidableEq, Repr

/-- The supersession bookkeeping of GoogleMap.tsx: the generation of the
current abort controller (a controller of an older generation is
aborted), and the log of consumer deliveries as
(owning generation, generation current at delivery time, kind). -/
structure OrchState where
  gen : ℕ
  deliveries : List (ℕ × ℕ × DeliveryKind)
deriving DecidableEq, Repr

/-- One scheduled completion of the event loop: a new search starting
(which aborts the previous controller), the places promise of search g
resolving, the places promise of search g rejecting (AbortError or
not), or the demographics batch of search g settling. -/
inductive SearchEvent where
  | start
  | placesOk (g : ℕ)
  | placesErr (g : ℕ) (isAbortError : Bool)
  | demographicsDone (g : ℕ)
deriving DecidableEq, Repr

/-- One event-loop step of the search lifecycle in GoogleMap.tsx.  A
resolved places promise and a settled demographics batch check their
abort signal before delivering; the catch branch of a non-abort
rejection calls the consumer callback with an empty list without
checking the signal. -/
def stepOrch (s : OrchState) : SearchEvent → OrchState
  | .start => { s with gen := s.gen + 1 }
  | .placesOk g =>
      if g < s.gen then s
      else { s with deliveries := (g, s.gen, .results) :: s.deliveries }
  | .placesErr g isAbortError =>
      if isAbortError then s
      else { s with deliveries := (g, s.gen, .emptyOnError) :: s.deliveries }
  | .demographicsDone g =>
      if g < s.gen then s
      else { s with deliveries := (g, s.gen, .demographics) :: s.deliveries }

/-- Run a trace of events from a state. -/
def runOrchFrom (s : OrchState) (events : List SearchEvent) : OrchState :=
  events.foldl stepOrch s

/-- Run a trace of events from the initial state (no search started). -/
def runOrch (events : List SearchEvent) : OrchState :=
  runOrchFrom { gen := 0, deliveries := [] } events

/-- A trace is well formed when every completion event belongs to a
search that has already started: its generation is positive and at most
the generation counter at that point. -/
def validFrom (gen : ℕ) : List SearchEvent → Bool
  | [] => true
  | .start :: rest => validFrom (gen + 1) rest
  | .placesOk g :: rest => decide (1 ≤ g) && decide (g ≤ gen) && validFrom gen rest
  | .placesErr g _ :: rest => decide (1 ≤ g) && decide (g ≤ gen) && validFrom gen rest
  | .demographicsDone g :: rest => decide (1 ≤ g) && decide (g ≤ gen) && validFrom gen rest

/-- A well-formed trace from the initial state. -/
def validTrace (events : List SearchEvent) : Bool :=
  validFrom 0 events

/-! Helper lemmas. -/

/-- The Haversine distance from a point to itself is zero. -/
lemma calculateDistance_self (p : GeographicPoint) : calculateDistance p p = 0 := by
  simp [calculateDistance, atan2, Real.sqrt_one]

/-- The default radius applies to an explicit zero radius. -/
lemma effRadius_someZero : effRadius (some 0) = 4023.36 := by
  simp [effRadius]

/-- The default radius applies to a missing radius. -/
lemma effRadius_none : effRadius none = 4023.36 := rfl

/-- A concrete point at the origin. -/
def point0 : GeographicPoint := { lat := 0, lng := 0 }

/-- A concrete business with an explicit zero radius. -/
def bizA : BusinessWithLocation :=
  { place_id := "a", name := "A", location := point0, radius := some 0 }

/-- A concrete business with no radius, at the same location. -/
def bizB : BusinessWithLocation :=
  { place_id := "b", name := "B", location := point0, radius := none }

/-- The overlap record that the scan produces for bizA and bizB. -/
noncomputable def overlapABrec : OverlapResult :=
  { business1 := "a"
    business2 := "b"
    distance := calculateDistance point0 point0
    overlapArea := calculateCircleIntersectionArea point0 4023.36 point0 4023.36
    overlapPercentage := calculateCircleIntersectionArea point0 4023.36 point0 4023.36 /
      (Real.pi * (min (4023.36 : ℝ) 4023.36) ^ 2) * 100 }

/-- The two coincident businesses overlap under their default radii. -/
lemma doCirclesOverlap_bizAB : doCirclesOverlap point0 4023.36 point0 4023.36 := by
  unfold doCirclesOverlap
  rw [calculateDistance_self]
  norm_num

/-- Evaluating the pair body on bizA and bizB. -/
lemma overlapPair_bizAB : overlapPair bizA bizB = some overlapABrec := by
  simp only [overlapPair, bizA, bizB, effRadius_someZero, effRadius_none]
  rw [if_pos doCirclesOverlap_bizAB]
  rfl

/-- Evaluating the whole scan on the two coincident businesses. -/
lemma find_bizAB : findOverlappingBusinesses [bizA, bizB] = [overlapABrec] := by
  simp [findOverlappingBusinesses, List.filterMap_cons, overlapPair_bizAB]

/-- What a produced overlap record contains, in terms of the pair of
businesses it came from. -/
lemma overlapPair_eq_some {b1 b2 : BusinessWithLocation} {o : OverlapResult}
    (h : overlapPair b1 b2 = some o) :
    o.business1 = b1.place_id ∧ o.business2 = b2.place_id ∧
    o.distance = calculateDistance b1.location b2.location ∧
    o.distance < effRadius b1.radius + effRadius b2.radius := by
  simp only [overlapPair] at h
  split at h
  · rename_i hov
    cases h
    exact ⟨rfl, rfl, rfl, hov⟩
  · exact absurd h (by simp)

/-- Every emitted overlap record comes from an ordered pair of input
businesses, the first occurring strictly before the second. -/
lemma mem_findOverlapping {bs : List BusinessWithLocation} {o : OverlapResult}
    (h : o ∈ findOverlappingBusinesses bs) :
    ∃ b1 b2, List.Sublist [b1, b2] bs ∧ overlapPair b1 b2 = some o := by
  induction bs with
  | nil => simp [findOverlappingBusinesses] at h
  | cons b rest ih =>
    simp only [findOverlappingBusinesses, List.mem_append] at h
    rcases h with h | h
    · obtain ⟨b2, hb2, heq⟩ := List.mem_filterMap.mp h
      exact ⟨b, b2, List.Sublist.cons₂ b (List.singleton_sublist.mpr hb2), heq⟩
    · obtain ⟨b1, b2, hsub, heq⟩ := ih h
      exact ⟨b1, b2, hsub.cons b, heq⟩

/-- The nested scan equals the filterMap over the lexicographically
ordered pair list: output order is pair-discovery order. -/
lemma find_eq_filterMap_orderedPairs (bs : List BusinessWithLocation) :
    findOverlappingBusinesses bs =
      (orderedPairs bs).filterMap (fun p => overlapPair p.1 p.2) := by
  induction bs with
  | nil => rfl
  | cons b rest ih =>
    simp only [findOverlappingBusinesses, orderedPairs, List.filterMap_append, ih,
      List.filterMap_map]
    rfl

/-- The ordered-pair list of an n-element list has n-choose-2 elements. -/
lemma orderedPairs_length {α : Type} (l : List α) :
    (orderedPairs l).length = l.length * (l.length - 1) / 2 := by
  have key : ∀ (m : List α), (orderedPairs m).length = (m.length).choose 2 := by
    intro m
    induction m with
    | nil => rfl
    | cons x xs ih =>
      simp only [orderedPairs, List.length_append, List.length_map, ih, List.length_cons]
      rw [Nat.choose_succ_succ, Nat.choose_one_right, Nat.add_comm]
  rw [key, Nat.choose_two_right]

/-- Distinct rows of the inner loop give overlap records naming
distinct unordered pairs. -/
lemma pairwise_filterMap_row (x : BusinessWithLocation) (xs : List BusinessWithLocation)
    (hx : x.place_id ∉ xs.map BusinessWithLocation.place_id)
    (hnd : (xs.map BusinessWithLocation.place_id).Nodup) :
    List.Pairwise (fun o1 o2 => ¬ sameUnorderedPair o1 o2) (xs.filterMap (overlapPair x)) := by
  induction xs with
  | nil => simp
  | cons y ys ih =>
    simp only [List.map_cons, List.nodup_cons] at hnd
    simp only [List.map_cons, List.mem_cons, not_or] at hx
    simp only [List.filterMap_cons]
    have tail := ih hx.2 hnd.2
    cases hyo : overlapPair x y with
    | none => exact tail
    | some o =>
      refine List.Pairwise.cons ?_ tail
      intro o2 ho2 hsame
      obtain ⟨z, hz, hzo⟩ := List.mem_filterMap.mp ho2
      obtain ⟨e1, e2, _, _⟩ := overlapPair_eq_some hyo
      obtain ⟨f1, f2, _, _⟩ := overlapPair_eq_some hzo
      have hzmem : z.place_id ∈ ys.map BusinessWithLocation.place_id :=
        List.mem_map_of_mem _ hz
      rcases hsame with ⟨g1, g2⟩ | ⟨g1, g2⟩
      · exact hnd.1 (by rw [← f2, ← g2, e2] at hzmem; exact hzmem)
      · exact hx.2 (by rw [← f2, ← g1, e1] at hzmem; exact hzmem)

/-- Under distinct ids, no emitted overlap record is a self-pair. -/
lemma find_no_self_pair {bs : List BusinessWithLocation}
    (h : (bs.map BusinessWithLocation.place_id).Nodup) {o : OverlapResult}
    (ho : o ∈ findOverlappingBusinesses bs) : o.business1 ≠ o.business2 := by
  obtain ⟨b1, b2, hsub, heq⟩ := mem_findOverlapping ho
  obtain ⟨e1, e2, _, _⟩ := overlapPair_eq_some heq
  have hnd2 : ([b1, b2].map BusinessWithLocation.place_id).Nodup :=
    (hsub.map BusinessWithLocation.place_id).nodup h
  simp only [List.map_cons, List.map_nil, List.nodup_cons] at hnd2
  rw [e1, e2]
  intro hcontra
  exact hnd2.1 (by simp [hcontra])

/-- Under distinct ids, the emitted overlap records name pairwise
distinct unordered pairs. -/
lemma find_pairwise_distinct {bs : List BusinessWithLocation}
    (h : (bs.map BusinessWithLocation.place_id).Nodup) :
    List.Pairwise (fun o1 o2 => ¬ sameUnorderedPair o1 o2) (findOverlappingBusinesses bs) := by
  induction bs with
  | nil => simp [findOverlappingBusinesses]
  | cons b rest ih =>
    simp only [List.map_cons, List.nodup_cons] at h
    simp only [findOverlappingBusinesses]
    rw [List.pairwise_append]
    refine ⟨pairwise_filterMap_row b rest h.1 h.2, ih h.2, ?_⟩
    intro o1 h1 o2 h2 hsame
    obtain ⟨z, hz, hzo⟩ := List.mem_filterMap.mp h1
    obtain ⟨e1, e2, _, _⟩ := overlapPair_eq_some hzo
    obtain ⟨b1, b2, hsub, heq⟩ := mem_findOverlapping h2
    obtain ⟨f1, f2, _, _⟩ := overlapPair_eq_some heq
    have hb1 : b1 ∈ rest := hsub.subset (by simp)
    have hb2 : b2 ∈ rest := hsub.subset (by simp)
    rcases hsame with ⟨g1, g2⟩ | ⟨g1, g2⟩
    · have hbb : b.place_id = b1.place_id := by rw [← e1, g1, f1]
      exact h.1 (by rw [hbb]; exact List.mem_map_of_mem _ hb1)
    · have hbb : b.place_id = b2.place_id := by rw [← e1, g1, f2]
      exact h.1 (by rw [hbb]; exact List.mem_map_of_mem _ hb2)

/-! Claim theorems. -/

/-- C1: calculateCircleIntersectionArea is the piecewise lens
definition: with d the Haversine distance between the centers, it
returns 0 when d is at least r1+r2, pi times the square of the smaller
radius when d is at most the absolute radius difference, and otherwise
the two-circle lens value (two circular-segment areas minus the shared
triangle area). -/
theorem C1_intersectionArea_piecewise (c1 c2 : GeographicPoint) (r1 r2 : ℝ)
    (h1 : 0 < r1) (h2 : 0 < r2) :
    (r1 + r2 ≤ calculateDistance c1 c2 →
      calculateCircleIntersectionArea c1 r1 c2 r2 = 0) ∧
    (calculateDistance c1 c2 ≤ |r1 - r2| →
      calculateCircleIntersectionArea c1 r1 c2 r2 = Real.pi * min r1 r2 * min r1 r2) ∧
    (|r1 - r2| < calculateDistance c1 c2 → calculateDistance c1 c2 < r1 + r2 →
      calculateCircleIntersectionArea c1 r1 c2 r2 =
        lensArea (calculateDistance c1 c2) r1 r2) := by
  refine ⟨?_, ?_, ?_⟩
  · intro h
    simp only [calculateCircleIntersectionArea]
    rw [if_pos h]
  · intro h
    have habs : |r1 - r2| < r1 + r2 := by
      rw [abs_sub_lt_iff]
      constructor <;> linarith
    simp only [calculateCircleIntersectionArea]
    rw [if_neg (not_le.mpr (lt_of_le_of_lt h habs)), if_pos h]
  · intro hlo hhi
    simp only [calculateCircleIntersectionArea]
    rw [if_neg (not_le.mpr hhi), if_neg (not_le.mpr hlo)]

/-- C1 witness: the piecewise characterization applied to two unit-scale
circles at the origin; since the two centers coincide, the smaller
circle is fully contained and the area is pi times its squared radius. -/
theorem C1_witness :
    calculateCircleIntersectionArea point0 1 point0 2 =
      Real.pi * min (1 : ℝ) 2 * min (1 : ℝ) 2 :=
  (C1_intersectionArea_piecewise point0 point0 1 2 (by norm_num) (by norm_num)).2.1
    (by rw [calculateDistance_self]; norm_num)

/-- In the partial-intersection branch (radius gap strictly below the
distance, distance strictly below the radius sum, positive radii), both
arguments handed to acos by calculateCircleIntersectionArea lie in the
closed interval from -1 to 1 in exact arithmetic. -/
lemma acosArgs_in_domain (d r1 r2 : ℝ) (h1 : 0 < r1) (h2 : 0 < r2)
    (hlo : |r1 - r2| < d) (hhi : d < r1 + r2) :
    (-1 ≤ acosArg1 d r1 r2 ∧ acosArg1 d r1 r2 ≤ 1) ∧
    (-1 ≤ acosArg2 d r1 r2 ∧ acosArg2 d r1 r2 ≤ 1) := by
  have hd : 0 < d := lt_of_le_of_lt (abs_nonneg _) hlo
  obtain ⟨ha, hb⟩ := abs_lt.mp hlo
  refine ⟨⟨?_, ?_⟩, ⟨?_, ?_⟩⟩
  · rw [acosArg1, le_div_iff₀ (by positivity)]
    nlinarith [mul_pos (show (0 : ℝ) < d + r1 - r2 by linarith)
      (show (0 : ℝ) < d + r1 + r2 by linarith)]
  · rw [acosArg1, div_le_one (by positivity)]
    nlinarith [mul_pos (show (0 : ℝ) < r2 - d + r1 by linarith)
      (show (0 : ℝ) < r2 + d - r1 by linarith)]
  · rw [acosArg2, le_div_iff₀ (by positivity)]
    nlinarith [mul_pos (show (0 : ℝ) < d + r2 - r1 by linarith)
      (show (0 : ℝ) < d + r2 + r1 by linarith)]
  · rw [acosArg2, div_le_one (by positivity)]
    nlinarith [mul_pos (show (0 : ℝ) < r1 - d + r2 by linarith)
      (show (0 : ℝ) < r1 + d - r2 by linarith)]

/-- The clamp of an acos argument to the closed interval from -1 to 1
that the spec mandates; stated from the spec words for comparison with
the unclamped acosArg1 and acosArg2 that the source passes to acos. -/
noncomputable def clampToUnit (x : ℝ) : ℝ := max (-1) (min 1 x)

/-- C2 (code bug evidence): the argument expression the source passes
to acos carries no clamp: as a function it leaves the closed interval
from -1 to 1 (concretely it is 97/20 at d = 10, r1 = 1, r2 = 2, where
the mandated clamp would alter it), while inside the partial branch the
clamp is a no-op in exact arithmetic (both arguments already lie in the
interval), so the omission is observable only under floating-point
rounding at near-tangent distances. -/
theorem C2_unclamped_but_in_domain (d r1 r2 : ℝ) (h1 : 0 < r1) (h2 : 0 < r2)
    (hlo : |r1 - r2| < d) (hhi : d < r1 + r2) :
    acosArg1 10 1 2 = 97 / 20 ∧
    clampToUnit (acosArg1 10 1 2) ≠ acosArg1 10 1 2 ∧
    clampToUnit (acosArg1 d r1 r2) = acosArg1 d r1 r2 ∧
    clampToUnit (acosArg2 d r1 r2) = acosArg2 d r1 r2 := by
  obtain ⟨⟨hlo1, hhi1⟩, ⟨hlo2, hhi2⟩⟩ := acosArgs_in_domain d r1 r2 h1 h2 hlo hhi
  have hval : acosArg1 10 1 2 = 97 / 20 := by
    rw [acosArg1]
    norm_num
  refine ⟨hval, ?_, ?_, ?_⟩
  · rw [hval, clampToUnit]
    norm_num
  · rw [clampToUnit, min_eq_right hhi1, max_eq_right hlo1]
  · rw [clampToUnit, min_eq_right hhi2, max_eq_right hlo2]

/-- C2 witness: the clamp comparison at the concrete
partial-intersection configuration d = 2, r1 = 1, r2 = 2. -/
theorem C2_witness :
    acosArg1 10 1 2 = 97 / 20 ∧
    clampToUnit (acosArg1 10 1 2) ≠ acosArg1 10 1 2 ∧
    clampToUnit (acosArg1 2 1 2) = acosArg1 2 1 2 ∧
    clampToUnit (acosArg2 2 1 2) = acosArg2 2 1 2 :=
  C2_unclamped_but_in_domain 2 1 2 (by norm_num) (by norm_num)
    (by rw [abs_sub_lt_iff]; norm_num) (by norm_num)

/-- C3: doCirclesOverlap holds exactly when the Haversine distance is
strictly below the radius sum (tangent circles do not overlap), and
consequently every overlap record emitted by the scan has distance
strictly below the sum of the two effective radii of its pair. -/
theorem C3_overlap_strict (c1 : GeographicPoint) (r1 : ℝ) (c2 : GeographicPoint) (r2 : ℝ)
    (bs : List BusinessWithLocation) (o : OverlapResult)
    (ho : o ∈ findOverlappingBusinesses bs) :
    (doCirclesOverlap c1 r1 c2 r2 ↔ calculateDistance c1 c2 < r1 + r2) ∧
    (∃ b1 b2, b1 ∈ bs ∧ b2 ∈ bs ∧
      o.business1 = b1.place_id ∧ o.business2 = b2.place_id ∧
      o.distance = calculateDistance b1.location b2.location ∧
      o.distance < effRadius b1.radius + effRadius b2.radius) := by
  refine ⟨Iff.rfl, ?_⟩
  obtain ⟨b1, b2, hsub, heq⟩ := mem_findOverlapping ho
  obtain ⟨e1, e2, e3, e4⟩ := overlapPair_eq_some heq
  exact ⟨b1, b2, hsub.subset (by simp), hsub.subset (by simp), e1, e2, e3, e4⟩

/-- C3 witness: the emitted record for the two coincident default-radius
businesses has distance below the sum of the effective radii. -/
theorem C3_witness :
    (doCirclesOverlap point0 1 point0 1 ↔ calculateDistance point0 point0 < 1 + 1) ∧
    (∃ b1 b2, b1 ∈ [bizA, bizB] ∧ b2 ∈ [bizA, bizB] ∧
      overlapABrec.business1 = b1.place_id ∧ overlapABrec.business2 = b2.place_id ∧
      overlapABrec.distance = calculateDistance b1.location b2.location ∧
      overlapABrec.distance < effRadius b1.radius + effRadius b2.radius) :=
  C3_overlap_strict point0 1 point0 1 [bizA, bizB] overlapABrec
    (by rw [find_bizAB]; exact List.mem_singleton.mpr rfl)

/-- C4: on any input list the scan emits the filterMap of the
lexicographically ordered pair list (pair-discovery order, no sort), at
most n(n-1)/2 records, and, when the ids are distinct, no self-pairs
and each unordered pair at most once. -/
theorem C4_detectOverlaps_pairs (bs : List BusinessWithLocation)
    (h : (bs.map BusinessWithLocation.place_id).Nodup) :
    findOverlappingBusinesses bs =
      (orderedPairs bs).filterMap (fun p => overlapPair p.1 p.2) ∧
    (findOverlappingBusinesses bs).length ≤ bs.length * (bs.length - 1) / 2 ∧
    (∀ o ∈ findOverlappingBusinesses bs, o.business1 ≠ o.business2) ∧
    List.Pairwise (fun o1 o2 => ¬ sameUnorderedPair o1 o2)
      (findOverlappingBusinesses bs) := by
  refine ⟨find_eq_filterMap_orderedPairs bs, ?_, fun o ho => find_no_self_pair h ho,
    find_pairwise_distinct h⟩
  rw [find_eq_filterMap_orderedPairs bs, ← orderedPairs_length bs]
  exact List.length_filterMap_le _ _

/-- C4 witness: the pair bound at the concrete two-business input. -/
theorem C4_witness :
    (findOverlappingBusinesses [bizA, bizB]).length ≤
      [bizA, bizB].length * ([bizA, bizB].length - 1) / 2 :=
  (C4_detectOverlaps_pairs [bizA, bizB] (by decide)).2.1

/-- C10: the default radius 4023.36 applies to an explicit zero radius
as well as to a missing one, so an entity with radius 0 is still
reported as overlapping under the default coverage circle. -/
theorem C10_zero_radius_defaulted :
    effRadius (some 0) = 4023.36 ∧ effRadius none = 4023.36 ∧
    bizA.radius = some 0 ∧
    findOverlappingBusinesses [bizA, bizB] = [overlapABrec] ∧
    overlapABrec.business1 = bizA.place_id ∧ overlapABrec.business2 = bizB.place_id :=
  ⟨effRadius_someZero, rfl, rfl, find_bizAB, rfl, rfl⟩

/-- Enrichment preserves list length. -/
lemma enrichAux_length (lookup : ℕ → LookupOutcome) (k : ℕ)
    (recs : List RecommendedPoint) : (enrichAux lookup k recs).length = recs.length := by
  induction recs generalizing k with
  | nil => rfl
  | cons r rs ih => simp [enrichAux, ih]

/-- Element i of the enrichment started at index k is the enrichment of
input element i with the outcome of lookup (k + i). -/
lemma enrichAux_get (lookup : ℕ → LookupOutcome) :
    ∀ (recs : List RecommendedPoint) (k i : ℕ) (hi : i < recs.length)
      (hi2 : i < (enrichAux lookup k recs).length),
      (enrichAux lookup k recs).get ⟨i, hi2⟩ = enrichOne (lookup (k + i)) (recs.get ⟨i, hi⟩) := by
  intro recs
  induction recs with
  | nil => intro k i hi _; exact absurd hi (by simp)
  | cons r rs ih =>
    intro k i hi hi2
    cases i with
    | zero => simp [enrichAux]
    | succ j =>
      have hj : j < rs.length := by simpa using hi
      have hj2 : j < (enrichAux lookup (k + 1) rs).length := by
        rw [enrichAux_length]; exact hj
      have hix : k + (j + 1) = (k + 1) + j := by omega
      simp only [enrichAux, List.get_cons_succ, hix]
      exact ih (k + 1) j hj hj2

/-- Every element of an enrichment result is the enrichment of some
input element. -/
lemma mem_enrichAux (lookup : ℕ → LookupOutcome) :
    ∀ (recs : List RecommendedPoint) (k : ℕ) (r : RecommendedPoint),
      r ∈ enrichAux lookup k recs →
      ∃ j r0, r = enrichOne (lookup j) r0 ∧ r0 ∈ recs := by
  intro recs
  induction recs with
  | nil => intro k r h; exact absurd h (by simp [enrichAux])
  | cons x xs ih =>
    intro k r h
    rcases List.mem_cons.mp h with h | h
    · exact ⟨k, x, h, List.mem_cons_self x xs⟩
    · obtain ⟨j, r0, heq, hmem⟩ := ih (k + 1) r h
      exact ⟨j, r0, heq, List.mem_cons_of_mem x hmem⟩

/-- Enriching a point only writes the realDemographics field. -/
lemma enrichOne_fields (oc : LookupOutcome) (r : RecommendedPoint) :
    (enrichOne oc r).id = r.id ∧ (enrichOne oc r).lat = r.lat ∧
    (enrichOne oc r).lng = r.lng ∧ (enrichOne oc r).tortoiseLevel = r.tortoiseLevel ∧
    (enrichOne oc r).reasoning = r.reasoning ∧
    (enrichOne oc r).demographics = r.demographics ∧
    (enrichOne oc r).proximityAnalysis = r.proximityAnalysis ∧
    (enrichOne oc r).realDemographics.isSome = true := by
  cases oc <;> simp [enrichOne]

/-- C5: enrichment returns a list of the same length, its element at
each position is the input element at that position with only the
lookup outcome of that same position attached (so a failed lookup
affects that point alone), every output element has its attached
demographics set, and every other field is unchanged. -/
theorem C5_enrichment_shape (lookup : ℕ → LookupOutcome)
    (recs : List RecommendedPoint) :
    (enrichRecommendationsWithDemographics lookup recs).length = recs.length ∧
    (∀ i (hi : i < recs.length)
      (hi2 : i < (enrichRecommendationsWithDemographics lookup recs).length),
      (enrichRecommendationsWithDemographics lookup recs).get ⟨i, hi2⟩ =
        enrichOne (lookup i) (recs.get ⟨i, hi⟩)) ∧
    (∀ r ∈ enrichRecommendationsWithDemographics lookup recs,
      r.realDemographics.isSome = true) ∧
    (∀ oc r, (enrichOne oc r).id = r.id ∧ (enrichOne oc r).lat = r.lat ∧
      (enrichOne oc r).lng = r.lng ∧ (enrichOne oc r).tortoiseLevel = r.tortoiseLevel ∧
      (enrichOne oc r).reasoning = r.reasoning ∧
      (enrichOne oc r).demographics = r.demographics ∧
      (enrichOne oc r).proximityAnalysis = r.proximityAnalysis ∧
      (enrichOne oc r).realDemographics.isSome = true) := by
  refine ⟨enrichAux_length lookup 0 recs, ?_, ?_, enrichOne_fields⟩
  · intro i hi hi2
    have := enrichAux_get lookup recs 0 i hi hi2
    simpa using this
  · intro r hr
    obtain ⟨j, r0, heq, _⟩ := mem_enrichAux lookup recs 0 r hr
    rw [heq]
    exact (enrichOne_fields (lookup j) r0).2.2.2.2.2.2.2

/-- A concrete recommended point for the enrichment witness. -/
def recPointX : RecommendedPoint :=
  { id := "r1", lat := 1, lng := 2, tortoiseLevel := 50, reasoning := "r"
    demographics := { targetMatch := 1, competitionLevel := 2, marketPotential := 3 }
    proximityAnalysis :=
      { nearestCompetitor := { distance := 5, name := "n" }, supportingBusinesses := [] }
    realDemographics := none }

/-- C5 witness: enriching one concrete point under an always-failing
lookup still yields the attached-demographics field on every element. -/
theorem C5_witness :
    ∀ r ∈ enrichRecommendationsWithDemographics (fun _ => .rejected "boom") [recPointX],
      r.realDemographics.isSome = true :=
  (C5_enrichment_shape (fun _ => .rejected "boom") [recPointX]).2.2.1


/-- The cancellation error value of fetchDemographics. -/
def cancelledErr : DemographicsError :=
  { error := "Request cancelled", details := none }

/-- The generic failure wrapper of fetchDemographics with its detail
message. -/
def failedFetch (m : String) : DemographicsError :=
  { error := "Failed to fetch demographics", details := some m }

/-- When the geography stage succeeds, fetchDemographics reduces to the
census stage. -/
lemma fetchExc_of_geo_ok {env : FetchEnv} {state county tract6 : String}
    (h : geoStage env.geo = .ok (state, county, tract6)) :
    fetchDemographicsExc env = censusStage env.census state county := by
  simp only [fetchDemographicsExc, h]
  rfl

/-- When the geography stage throws, fetchDemographics rethrows it. -/
lemma fetchExc_of_geo_error {env : FetchEnv} {e : JsErr}
    (h : geoStage env.geo = .error e) : fetchDemographicsExc env = .error e := by
  simp only [fetchDemographicsExc, h]
  rfl

/-- C6: fetchDemographics never escapes as an exception: every failure
of the taxonomy (cancelled fetch, transport failure, non-ok status,
empty body, malformed payload, no geography match, no statistics rows)
comes back as a DemographicsError value with its human-readable message,
a cancellation at either fetch yields the distinct Request-cancelled
error, every error carries one of the two top-level messages, and a
two-row statistics response yields a parsed data value. -/
theorem C6_fetch_failure_taxonomy (env : FetchEnv) :
    (env.geo = .aborted → fetchDemographics env = .inr cancelledErr) ∧
    (∀ state county tract6, geoStage env.geo = .ok (state, county, tract6) →
      env.census = .aborted → fetchDemographics env = .inr cancelledErr) ∧
    (∀ m, env.geo = .networkError m →
      fetchDemographics env = .inr (failedFetch m)) ∧
    (∀ status statusText, env.geo = .httpError status statusText →
      fetchDemographics env =
        .inr (failedFetch ("FCC API error: " ++ toString status ++ " " ++ statusText))) ∧
    (env.geo = .got .empty →
      fetchDemographics env = .inr (failedFetch "Empty response from FCC API")) ∧
    (env.geo = .got .malformed →
      fetchDemographics env = .inr (failedFetch "Invalid JSON response from FCC API")) ∧
    (∀ g, env.geo = .got (.parsed g) → (g.results = none ∨ g.results = some []) →
      fetchDemographics env = .inr (failedFetch "Location not found in census data")) ∧
    (∀ m, geoStage env.geo = .error (.err m) →
      fetchDemographics env = .inr (failedFetch m)) ∧
    (∀ state county tract6 m, geoStage env.geo = .ok (state, county, tract6) →
      env.census = .networkError m → fetchDemographics env = .inr (failedFetch m)) ∧
    (∀ state county tract6 status statusText,
      geoStage env.geo = .ok (state, county, tract6) →
      env.census = .httpError status statusText →
      fetchDemographics env =
        .inr (failedFetch ("Census API error: " ++ toString status ++ " " ++ statusText))) ∧
    (∀ state county tract6, geoStage env.geo = .ok (state, county, tract6) →
      env.census = .got .empty →
      fetchDemographics env = .inr (failedFetch "Empty response from Census API")) ∧
    (∀ state county tract6, geoStage env.geo = .ok (state, county, tract6) →
      env.census = .got .malformed →
      fetchDemographics env = .inr (failedFetch "Invalid JSON response from Census API")) ∧
    (∀ state county tract6 rows, geoStage env.geo = .ok (state, county, tract6) →
      env.census = .got (.parsed rows) →
      (rows = none ∨ ∃ l, rows = some l ∧ l.length < 2) →
      fetchDemographics env =
        .inr (failedFetch "No demographic data available for this location")) ∧
    (∀ state county tract6 headers dataRow rest,
      geoStage env.geo = .ok (state, county, tract6) →
      env.census = .got (.parsed (some (headers :: dataRow :: rest))) →
      fetchDemographics env = .inl (parseCensusRows headers dataRow state county)) ∧
    (∀ e, fetchDemographics env = .inr e →
      e.error = "Request cancelled" ∨ e.error = "Failed to fetch demographics") := by
  refine ⟨?_, ?_, ?_, ?_, ?_, ?_, ?_, ?_, ?_, ?_, ?_, ?_, ?_, ?_, ?_⟩
  · intro h
    rw [fetchDemographics, fetchExc_of_geo_error (by rw [h]; rfl)]
    rfl
  · intro st cty t6 hgeo hc
    rw [fetchDemographics, fetchExc_of_geo_ok hgeo, hc]
    rfl
  · intro m h
    rw [fetchDemographics, fetchExc_of_geo_error (by rw [h]; rfl)]
    rfl
  · intro status statusText h
    rw [fetchDemographics, fetchExc_of_geo_error (by rw [h]; rfl)]
    rfl
  · intro h
    rw [fetchDemographics, fetchExc_of_geo_error (by rw [h]; rfl)]
    rfl
  · intro h
    rw [fetchDemographics, fetchExc_of_geo_error (by rw [h]; rfl)]
    rfl
  · intro g hgeo hres
    have hg : geoStage env.geo = .error (.err "Location not found in census data") := by
      obtain ⟨res⟩ := g
      rw [hgeo]
      rcases hres with hres | hres <;>
        · replace hres : res = _ := hres
          subst hres
          rfl
    rw [fetchDemographics, fetchExc_of_geo_error hg]
    rfl
  · intro m h
    rw [fetchDemographics, fetchExc_of_geo_error h]
    rfl
  · intro st cty t6 m hgeo hc
    rw [fetchDemographics, fetchExc_of_geo_ok hgeo, hc]
    rfl
  · intro st cty t6 status statusText hgeo hc
    rw [fetchDemographics, fetchExc_of_geo_ok hgeo, hc]
    rfl
  · intro st cty t6 hgeo hc
    rw [fetchDemographics, fetchExc_of_geo_ok hgeo, hc]
    rfl
  · intro st cty t6 hgeo hc
    rw [fetchDemographics, fetchExc_of_geo_ok hgeo, hc]
    rfl
  · intro st cty t6 rows hgeo hc hrows
    rw [fetchDemographics, fetchExc_of_geo_ok hgeo, hc]
    rcases hrows with hrows | ⟨l, hl, hlen⟩
    · rw [hrows]; rfl
    · rw [hl]
      match l, hlen with
      | [], _ => rfl
      | [x], _ => rfl
  · intro st cty t6 headers dataRow rest hgeo hc
    rw [fetchDemographics, fetchExc_of_geo_ok hgeo, hc]
    rfl
  · intro e he
    rw [fetchDemographics] at he
    split at he
    · exact absurd he (by simp)
    · injection he with h2
      subst h2
      left
      rfl
    · injection he with h2
      subst h2
      right
      rfl

/-- The environment of a call whose first fetch is already aborted. -/
def envAborted : FetchEnv := { geo := .aborted, census := .aborted }

/-- C6 witness: a call cancelled at the geography fetch returns the
Request-cancelled error value. -/
theorem C6_witness : fetchDemographics envAborted = .inr cancelledErr :=
  (C6_fetch_failure_taxonomy envAborted).1 rfl

/-- The census header row used by fetchDemographics. -/
def censusHeaders : List String :=
  ["NAME", "B19013_001E", "B01003_001E", "B15003_022E", "B15003_023E",
   "B15003_024E", "B15003_025E", "B25077_001E", "B08303_001E"]

/-- A statistics row with a negative income sentinel and more degree
holders than population. -/
def badCensusRow : List String :=
  ["Tract 1", "-666666666", "1", "2", "0", "0", "0", "-666666666", "0"]

/-- C7 counterexample: a header-row/data-row response on which the
parsed record violates the claimed ranges: collegePercent is 200 and
medianIncome is negative. -/
theorem C7_counterexample :
    100 < (parseCensusRows censusHeaders badCensusRow "06" "001").collegePercent ∧
    (parseCensusRows censusHeaders badCensusRow "06" "001").medianIncome < 0 := by
  constructor
  · have h : (parseCensusRows censusHeaders badCensusRow "06" "001").collegePercent =
        ((2 : Int) : ℚ) / ((1 : Int) : ℚ) * 100 := rfl
    rw [h]
    norm_num
  · decide

/-- A well-formed statistics row for the C7 witness. -/
def goodCensusRow : List String :=
  ["Tract 2", "50000", "100", "10", "5", "1", "1", "300000", "40"]

/-- C7 amended: the returned record always computes collegePercent as
the guarded ratio (100 times the degree sum over the population when
the population is positive, else 0, so a population of 0 gives 0 with
no division by zero); and whenever the parsed numeric fields of the
statistics row are nonnegative and the four degree counts sum to at
most the population, the record satisfies the data-model ranges. -/
theorem C7_record_ranges (headers data : List String) (state county : String) :
    ((0 ≤ parseIntOrZero (dataObjLookup headers data "B01003_001E") ∧
      0 ≤ parseIntOrZero (dataObjLookup headers data "B19013_001E") ∧
      0 ≤ parseIntOrZero (dataObjLookup headers data "B25077_001E") ∧
      0 ≤ parseIntOrZero (dataObjLookup headers data "B15003_022E") ∧
      0 ≤ parseIntOrZero (dataObjLookup headers data "B15003_023E") ∧
      0 ≤ parseIntOrZero (dataObjLookup headers data "B15003_024E") ∧
      0 ≤ parseIntOrZero (dataObjLookup headers data "B15003_025E") ∧
      parseIntOrZero (dataObjLookup headers data "B15003_022E") +
        parseIntOrZero (dataObjLookup headers data "B15003_023E") +
        parseIntOrZero (dataObjLookup headers data "B15003_024E") +
        parseIntOrZero (dataObjLookup headers data "B15003_025E") ≤
        parseIntOrZero (dataObjLookup headers data "B01003_001E")) →
      (0 ≤ (parseCensusRows headers data state county).population ∧
       0 ≤ (parseCensusRows headers data state county).medianIncome ∧
       0 ≤ (parseCensusRows headers data state county).medianHomeValue ∧
       0 ≤ (parseCensusRows headers data state county).collegePercent ∧
       (parseCensusRows headers data state county).collegePercent ≤ 100)) ∧
    (parseCensusRows headers data state county).collegePercent =
      (if 0 < parseIntOrZero (dataObjLookup headers data "B01003_001E") then
        (((parseIntOrZero (dataObjLookup headers data "B15003_022E") +
           parseIntOrZero (dataObjLookup headers data "B15003_023E") +
           parseIntOrZero (dataObjLookup headers data "B15003_024E") +
           parseIntOrZero (dataObjLookup headers data "B15003_025E") : Int) : ℚ) /
          ((parseIntOrZero (dataObjLookup headers data "B01003_001E") : Int) : ℚ)) * 100
       else 0) ∧
    (parseIntOrZero (dataObjLookup headers data "B01003_001E") = 0 →
      (parseCensusRows headers data state county).collegePercent = 0) := by
  set pop := parseIntOrZero (dataObjLookup headers data "B01003_001E") with hpop
  set grads := parseIntOrZero (dataObjLookup headers data "B15003_022E") +
    parseIntOrZero (dataObjLookup headers data "B15003_023E") +
    parseIntOrZero (dataObjLookup headers data "B15003_024E") +
    parseIntOrZero (dataObjLookup headers data "B15003_025E") with hgrads
  have hcp : (parseCensusRows headers data state county).collegePercent =
      (if 0 < pop then ((grads : ℚ) / (pop : ℚ)) * 100 else 0) := rfl
  refine ⟨?_, hcp, ?_⟩
  · rintro ⟨hp, hi, hh, hb, hm, hpr, hdo, hsum⟩
    have hgnn : (0 : Int) ≤ grads := by
      rw [hgrads]
      exact add_nonneg (add_nonneg (add_nonneg hb hm) hpr) hdo
    refine ⟨hp, hi, hh, ?_, ?_⟩
    · rw [hcp]
      split
      · rename_i hposp
        have h1 : (0 : ℚ) ≤ (grads : ℚ) := by exact_mod_cast hgnn
        have h2 : (0 : ℚ) < (pop : ℚ) := by exact_mod_cast hposp
        positivity
      · exact le_refl 0
    · rw [hcp]
      split
      · rename_i hposp
        have h2 : (0 : ℚ) < (pop : ℚ) := by exact_mod_cast hposp
        have h3 : (grads : ℚ) ≤ (pop : ℚ) := by exact_mod_cast hsum
        have h4 : (grads : ℚ) / (pop : ℚ) ≤ 1 := (div_le_one h2).mpr h3
        nlinarith
      · norm_num
  · intro h0
    rw [hcp, h0]
    norm_num

/-- A statistics row whose population parses to 0 while a degree count
is positive, for the unconditional part of the C7 witness. -/
def zeroPopCensusRow : List String :=
  ["Tract 3", "50000", "0", "5", "0", "0", "0", "300000", "40"]

/-- C7 witness: on a concrete well-formed response the ranges hold with
the hypotheses discharged, and on a concrete response with population 0
and a positive degree count collegePercent is 0 unconditionally. -/
theorem C7_witness :
    (parseCensusRows censusHeaders goodCensusRow "06" "001").collegePercent ≤ 100 ∧
    (parseCensusRows censusHeaders zeroPopCensusRow "06" "001").collegePercent = 0 :=
  ⟨((C7_record_ranges censusHeaders goodCensusRow "06" "001").1
      ⟨by decide, by decide, by decide, by decide, by decide, by decide, by decide,
        by decide⟩).2.2.2.2,
   (C7_record_ranges censusHeaders zeroPopCensusRow "06" "001").2.2 (by decide)⟩

/-- C8: a search requested within the minimum interval of the previous
dispatch is deferred, not dropped: the scheduling effect sets the
timeout deadline to exactly the next eligible instant (previous
dispatch time plus the minimum interval), and whenever that timeout
fires at or after its deadline the rate-limit guard passes and the
search dispatches, at least the minimum interval after the previous
dispatch. -/
theorem C8_rate_limit_defers (s : SearchSched) (t1 t2 t : ℕ)
    (hlast : s.lastSearchTime = t1) (h12 : t1 ≤ t2)
    (hsoon : t2 - t1 < MIN_SEARCH_INTERVAL)
    (hfire : t1 + MIN_SEARCH_INTERVAL ≤ t) :
    (requestSearch s t2).pending = some (t1 + MIN_SEARCH_INTERVAL) ∧
    fireTimeout (requestSearch s t2) t =
      { lastSearchTime := t, pending := none, dispatches := t :: s.dispatches } ∧
    t1 + MIN_SEARCH_INTERVAL ≤ t := by
  subst hlast
  have hdl : t2 + (MIN_SEARCH_INTERVAL - (t2 - s.lastSearchTime)) =
      s.lastSearchTime + MIN_SEARCH_INTERVAL := by
    simp only [MIN_SEARCH_INTERVAL] at hsoon ⊢
    omega
  refine ⟨?_, ?_, hfire⟩
  · simp only [requestSearch, hdl]
  · simp only [requestSearch, fireTimeout]
    rw [if_neg (by simp only [MIN_SEARCH_INTERVAL] at hfire ⊢; omega)]

/-- C8 witness: a second request 500 ms after a dispatch at time 1000 is
scheduled for time 3000 and dispatches when the timer fires then. -/
theorem C8_witness :
    (requestSearch { lastSearchTime := 1000, pending := none, dispatches := [1000] }
        1500).pending = some (1000 + MIN_SEARCH_INTERVAL) ∧
    fireTimeout (requestSearch
        { lastSearchTime := 1000, pending := none, dispatches := [1000] } 1500) 3000 =
      { lastSearchTime := 3000, pending := none, dispatches := 3000 :: [1000] } ∧
    1000 + MIN_SEARCH_INTERVAL ≤ 3000 :=
  C8_rate_limit_defers { lastSearchTime := 1000, pending := none, dispatches := [1000] }
    1000 1500 3000 rfl (by norm_num) (by decide) (by decide)

/-- A trace in which search 1 is superseded by search 2 and then fails
with a non-abort error after search 2 has already delivered. -/
def supersededErrTrace : List SearchEvent :=
  [.start, .start, .placesOk 2, .placesErr 1 false]

/-- C9 counterexample: on a well-formed trace the superseded search 1
still delivers (an empty result list through the catch branch) while
the current generation is 2, so consumers do not receive only the most
recent search's results. -/
theorem C9_counterexample :
    validTrace supersededErrTrace = true ∧
    (1, 2, DeliveryKind.emptyOnError) ∈ (runOrch supersededErrTrace).deliveries ∧
    (runOrch supersededErrTrace).gen = 2 ∧ (1 : ℕ) ≠ 2 := by
  refine ⟨rfl, by decide, rfl, by decide⟩

/-- A places-resolution step does not change the controller generation. -/
lemma stepOrch_gen_placesOk (s : OrchState) (g : ℕ) :
    (stepOrch s (.placesOk g)).gen = s.gen := by
  simp only [stepOrch]
  split <;> rfl

/-- A places-rejection step does not change the controller generation. -/
lemma stepOrch_gen_placesErr (s : OrchState) (g : ℕ) (b : Bool) :
    (stepOrch s (.placesErr g b)).gen = s.gen := by
  simp only [stepOrch]
  split <;> rfl

/-- A demographics-settling step does not change the controller
generation. -/
lemma stepOrch_gen_demographics (s : OrchState) (g : ℕ) :
    (stepOrch s (.demographicsDone g)).gen = s.gen := by
  simp only [stepOrch]
  split <;> rfl

/-- Every delivery pushed by a resolved places promise or a settled
demographics batch belongs to the generation current at delivery time;
the catch-branch deliveries are unconstrained. -/
lemma runOrchFrom_delivery_inv (P : ℕ × ℕ × DeliveryKind → Prop)
    (hP : ∀ g cur, P (g, cur, DeliveryKind.emptyOnError))
    (hQ : ∀ g k, P (g, g, k)) :
    ∀ (events : List SearchEvent) (s : OrchState),
      validFrom s.gen events = true → (∀ e ∈ s.deliveries, P e) →
      ∀ e ∈ (runOrchFrom s events).deliveries, P e := by
  intro events
  induction events with
  | nil => intro s _ hs e he; exact hs e he
  | cons ev rest ih =>
    intro s hv hs
    cases ev with
    | start =>
      exact ih { s with gen := s.gen + 1 } (by simpa [validFrom] using hv) hs
    | placesOk g =>
      simp only [validFrom, Bool.and_eq_true, decide_eq_true_eq] at hv
      obtain ⟨⟨hg1, hg2⟩, hrest⟩ := hv
      refine ih _ (by rw [stepOrch_gen_placesOk]; exact hrest) ?_
      simp only [stepOrch]
      split
      · exact hs
      · rename_i hng
        intro e he
        rcases List.mem_cons.mp he with he | he
        · have hge : g = s.gen := by omega
          rw [he, hge]
          exact hQ s.gen _
        · exact hs e he
    | placesErr g isAbort =>
      simp only [validFrom, Bool.and_eq_true, decide_eq_true_eq] at hv
      obtain ⟨⟨hg1, hg2⟩, hrest⟩ := hv
      refine ih _ (by rw [stepOrch_gen_placesErr]; exact hrest) ?_
      simp only [stepOrch]
      split
      · exact hs
      · intro e he
        rcases List.mem_cons.mp he with he | he
        · rw [he]
          exact hP g s.gen
        · exact hs e he
    | demographicsDone g =>
      simp only [validFrom, Bool.and_eq_true, decide_eq_true_eq] at hv
      obtain ⟨⟨hg1, hg2⟩, hrest⟩ := hv
      refine ih _ (by rw [stepOrch_gen_demographics]; exact hrest) ?_
      simp only [stepOrch]
      split
      · exact hs
      · rename_i hng
        intro e he
        rcases List.mem_cons.mp he with he | he
        · have hge : g = s.gen := by omega
          rw [he, hge]
          exact hQ s.gen _
        · exact hs e he

/-- C9 amended: on every well-formed trace, every delivery of a
successful places result or of a demographics batch belongs to the
generation current at delivery time, i.e. only the most recent search
delivers through those paths; only the catch branch of a failed places
promise can deliver (an empty list) on behalf of a superseded search. -/
theorem C9_supersession_amended (events : List SearchEvent)
    (h : validTrace events = true) :
    ∀ g cur k, (g, cur, k) ∈ (runOrch events).deliveries →
      (k = DeliveryKind.results ∨ k = DeliveryKind.demographics) → g = cur := by
  have key := runOrchFrom_delivery_inv
    (fun e => (e.2.2 = DeliveryKind.results ∨ e.2.2 = DeliveryKind.demographics) →
      e.1 = e.2.1)
    (fun g cur => by rintro (hk | hk) <;> exact DeliveryKind.noConfusion hk)
    (fun g k => fun _ => rfl)
    events { gen := 0, deliveries := [] } h (by simp)
  intro g cur k hmem hk
  exact key (g, cur, k) hmem hk

/-- A trace with one search whose places promise resolves and whose
demographics batch settles while it is still current. -/
def currentOkTrace : List SearchEvent :=
  [.start, .placesOk 1, .demographicsDone 1]

/-- C9 witness: the amended supersession property applied to a concrete
well-formed trace and its results delivery. -/
theorem C9_witness : (1 : ℕ) = 1 :=
  C9_supersession_amended currentOkTrace rfl 1 1 DeliveryKind.results
    (by decide) (Or.inl rfl)
